import Mathlib

/-!
Verification of `scripts/get_links.py` (mwdj-links): a one-shot ETL script that
fetches a Linktree page, extracts the embedded JSON payload, and materializes
each link as a markdown descriptor file plus an optional thumbnail image.

The script is shallowly embedded below.  Python values flowing out of
`json.loads` are modelled by the inductive `Json` (JSON numbers are modelled as
integers; the payloads relevant here carry integer `position` fields only).
Python runtime errors (KeyError, TypeError, AttributeError, IndexError and the
exceptions raised by the `requests` library) are modelled by `PyErr`, and every
fallible piece of the script returns `Except PyErr _`.  Network I/O enters the
model as explicit parameters: an `HttpOutcome` for each HTTP GET.  File writes
are collected into a list of `FileWrite` values instead of touching a
filesystem.
-/

namespace MwdjLinks

/-- A JSON value as produced by Python's `json.loads`: `None`, booleans,
numbers (integer payloads only), strings, lists and dicts (association lists;
`json.loads` collapses duplicate keys, so lookups below use the first match of
an already-collapsed dict). -/
inductive Json where
  | null
  | bool (b : Bool)
  | num (n : Int)
  | str (s : String)
  | arr (elems : List Json)
  | obj (fields : List (String × Json))

/-- The Python exceptions the script can raise. -/
inductive PyErr where
  | keyError (key : String)
  | typeError (ty : String)
  | attrError (ty : String) (attr : String)
  | indexError (msg : String)
  | requestException (kind : String)
deriving DecidableEq

/-- Python's type name for a value, as it appears in error messages. -/
def pyTypeName : Json → String
  | .null => "NoneType"
  | .bool _ => "bool"
  | .num _ => "int"
  | .str _ => "str"
  | .arr _ => "list"
  | .obj _ => "dict"

/-- Python subscription `j[key]` with a string key: succeeds on a dict that has
the key, raises `KeyError(key)` on a dict that lacks it, and raises a
`TypeError` naming the actual type on any non-dict value. -/
def pyIndex (j : Json) (key : String) : Except PyErr Json :=
  match j with
  | .obj fields =>
    match fields.lookup key with
    | some v => .ok v
    | none => .error (.keyError key)
  | _ => .error (.typeError (pyTypeName j))

/-- Python membership `key in j` for a string key: key containment for a dict,
element equality for a list, substring test for a string, `TypeError` for
non-container values. -/
def keyIn (key : String) (j : Json) : Except PyErr Bool :=
  match j with
  | .obj fields => .ok (fields.any fun kv => kv.1 == key)
  | .arr xs => .ok (xs.any fun x => match x with | .str s => s == key | _ => false)
  | .str s => .ok (key.isEmpty || decide (1 < (s.splitOn key).length))
  | _ => .error (.typeError (pyTypeName j))

/-- Python truthiness of a value. -/
def pyTruthy : Json → Bool
  | .null => false
  | .bool b => b
  | .num n => n != 0
  | .str s => !s.isEmpty
  | .arr xs => !xs.isEmpty
  | .obj fs => !fs.isEmpty

/-- Python `v + 1` as used in `priority = link["position"] + 1`: defined on
ints (and bools, which are ints in Python), a `TypeError` otherwise. -/
def pyAddOne : Json → Except PyErr Int
  | .num n => .ok (n + 1)
  | .bool b => .ok ((if b then 1 else 0) + 1)
  | j => .error (.typeError (pyTypeName j))

/-- Accessing a string method (`.lower()`, `.split(...)`) on a value: succeeds
only on a string, otherwise raises `AttributeError` naming the type and the
missing attribute. -/
def pyAsStr (j : Json) (attr : String) : Except PyErr String :=
  match j with
  | .str s => .ok s
  | _ => .error (.attrError (pyTypeName j) attr)

/-- Python iteration over a value (`for x in v`): a list yields its elements, a
string its characters (as 1-character strings), a dict its keys; other values
raise `TypeError`. -/
def pyIter : Json → Except PyErr (List Json)
  | .arr xs => .ok xs
  | .str s => .ok (s.data.map fun c => .str ⟨[c]⟩)
  | .obj fs => .ok (fs.map fun kv => .str kv.1)
  | j => .error (.typeError (pyTypeName j))

mutual

/-- Python `repr` of a value (string escaping inside quotes is not modelled;
no claim depends on it). -/
def pyRepr : Json → String
  | .null => "None"
  | .bool b => if b then "True" else "False"
  | .num n => toString n
  | .str s => "'" ++ s ++ "'"
  | .arr xs => "[" ++ pyReprElems xs ++ "]"
  | .obj fs => "\x7b" ++ pyReprFields fs ++ "\x7d"

/-- Comma-separated `repr`s of list elements. -/
def pyReprElems : List Json → String
  | [] => ""
  | [x] => pyRepr x
  | x :: xs => pyRepr x ++ ", " ++ pyReprElems xs

/-- Comma-separated `'key': repr(value)` pairs of a dict. -/
def pyReprFields : List (String × Json) → String
  | [] => ""
  | [(k, v)] => "'" ++ k ++ "': " ++ pyRepr v
  | (k, v) :: fs => "'" ++ k ++ "': " ++ pyRepr v ++ ", " ++ pyReprFields fs

end

/-- Python `str(v)`, as interpolated by an f-string: identity on strings,
`repr`-style rendering otherwise. -/
def pyStr : Json → String
  | .str s => s
  | j => pyRepr j

/-- Truthiness of the Python `img_fn` variable, which is either `None` or a
string. -/
def pyTruthyOptStr : Option String → Bool
  | none => false
  | some s => !s.isEmpty

/-- F-string rendering of a variable that is either `None` or a string. -/
def pyStrOptStr : Option String → String
  | none => "None"
  | some s => s

/-! ## Slugification (`stub_title`, lines 61-73) -/

/-- The regex character class `[a-zA-Z0-9]` of `stub_title`'s first `re.sub`. -/
def isAlnum (c : Char) : Bool :=
  ('a' ≤ c && c ≤ 'z') || ('A' ≤ c && c ≤ 'Z') || ('0' ≤ c && c ≤ '9')

/-- Lowercase letters and digits: the alphabet the spec says slugs draw from. -/
def isLowerAlnum (c : Char) : Bool :=
  ('a' ≤ c && c ≤ 'z') || ('0' ≤ c && c ≤ '9')

/-- Python `str.lower`, modelled on the ASCII range.  (Python's `lower` is
Unicode-aware, but every character outside `[a-zA-Z0-9]` — lowered or not — is
replaced by the following character-class substitution, so the ASCII model
agrees with the source on the properties proved here.) -/
def lowerChar (c : Char) : Char :=
  if 'A' ≤ c && c ≤ 'Z' then Char.ofNat (c.toNat + 32) else c

/-- `re.sub(r"[^a-zA-Z0-9]+", "-", s)`: replace every maximal run of
characters outside the class with a single hyphen.  The boolean argument
records whether the previous character was part of such a run (in which case
the run's hyphen has already been emitted). -/
def collapseAux (inRun : Bool) : List Char → List Char
  | [] => []
  | c :: cs =>
    if isAlnum c then c :: collapseAux false cs
    else if inRun then collapseAux true cs
    else '-' :: collapseAux true cs

/-- The first substitution of `stub_title`. -/
def collapseNonAlnum (l : List Char) : List Char :=
  collapseAux false l

/-- No two adjacent characters are both hyphens: the shape invariant of
`collapseNonAlnum`'s output, used to prove slug idempotence. -/
def NoTwoHyphens (a b : Char) : Prop :=
  ¬(a = '-' ∧ b = '-')

/-- `re.sub(r"^-+|-+$", "", s)`: remove the leading run and the trailing run
of hyphens. -/
def stripEdgeHyphens (l : List Char) : List Char :=
  ((l.dropWhile fun c => c == '-').reverse.dropWhile fun c => c == '-').reverse

/-- `stub_title` (lines 61-73): lowercase, collapse runs of non-alphanumerics
to single hyphens, strip edge hyphens. -/
def stub_title (title : String) : String :=
  ⟨stripEdgeHyphens (collapseNonAlnum (title.data.map lowerChar))⟩

/-- `stub_title` as invoked on the raw `link["title"]` value: `title.lower()`
raises `AttributeError` when the value is not a string. -/
def stub_title_py (title : Json) : Except PyErr String :=
  match title with
  | .str s => .ok (stub_title s)
  | j => .error (.attrError (pyTypeName j) "lower")

/-! ## HTTP and files -/

/-- The outcome of one HTTP GET, supplied to the model as a parameter: either
a response with a status code and a body, or a connection failure, or a
timeout. -/
inductive HttpOutcome where
  | response (status : Nat) (body : String)
  | connError
  | timeout
deriving DecidableEq

/-- A `requests` response object (the fields the script reads). -/
structure Response where
  status : Nat
  content : String
deriving DecidableEq

/-- `requests.get(url, timeout=30)` (documented behavior of the `requests`
library): raises `ConnectionError` or `Timeout` exceptions on request failure,
but returns the response object for any HTTP status whatsoever — the script
never calls `raise_for_status()` and never inspects `status_code`. -/
def requests_get : HttpOutcome → Except PyErr Response
  | .response st body => .ok ⟨st, body⟩
  | .connError => .error (.requestException "ConnectionError")
  | .timeout => .error (.requestException "Timeout")

/-- One file written by the script: its path and its content (image bytes are
modelled as a string). -/
structure FileWrite where
  path : String
  content : String
deriving DecidableEq

/-! ## `create_link_file` (lines 33-58) -/

/-- `create_link_file` (lines 33-58): the file content produced by the
successive `f.write` calls.  `url` and `title` arrive as raw JSON values and
are rendered by the f-strings; `priority` is the computed int; `img_fn` and
`image_link` are `None` or strings, and the `image:` line is written exactly
when `img_fn` is truthy. -/
def create_link_file (url : Json) (priority : Int) (title : Json)
    (img_fn : Option String) (image_link : Option String) : String :=
  let content := "---\n"
  let content := content ++ "title: " ++ pyStr title ++ "\n"
  let content := content ++ "link: " ++ pyStr url ++ "\n"
  let content := content ++ "priority: " ++ toString priority ++ "\n"
  let content := if pyTruthyOptStr img_fn then
      content ++ "image: " ++ pyStrOptStr image_link ++ "\n"
    else content
  let content := content ++ "---\n"
  content ++ "\n"

/-- The descriptor layout exactly as the spec words it: a fixed-order list of
lines — header delimiter, `title:`, `link:`, `priority:`, an `image:` line
only when an image reference exists, closing delimiter, blank line — each line
terminated by a newline when the file is rendered. -/
def descriptor_spec_lines (url : Json) (priority : Int) (title : Json)
    (img_fn : Option String) (image_link : Option String) : List String :=
  ["---", "title: " ++ pyStr title, "link: " ++ pyStr url,
      "priority: " ++ toString priority]
    ++ (if pyTruthyOptStr img_fn then ["image: " ++ pyStrOptStr image_link] else [])
    ++ ["---", ""]

/-- Rendering of a list of lines as file text: every line followed by a
newline. -/
def renderLines (lines : List String) : String :=
  String.join (lines.map fun l => l ++ "\n")

/-! ## `capture_link` (lines 76-123) -/

/-- Python `img.split("/")`: split on every occurrence of the slash. -/
def splitOnSlash : List Char → List (List Char)
  | [] => [[]]
  | c :: cs =>
    if c = '/' then [] :: splitOnSlash cs
    else
      match splitOnSlash cs with
      | r :: rs => (c :: r) :: rs
      | [] => [[c]]

/-- `img.split("/")[-1]`: the final path segment of a URL.  (`str.split`
always returns a non-empty list, so the `[-1]` subscript never fails; the
default of `getLastD` is unreachable.) -/
def lastSegment (s : String) : String :=
  ((splitOnSlash s.data).map fun l => (⟨l⟩ : String)).getLastD ""

/-- The thumbnail resolution of `capture_link` (lines 103-108): prefer the
`thumbnail` key when present (whatever its value), otherwise
`modifiers.thumbnailImage` when present, otherwise `None`. -/
def resolve_img (link : Json) : Except PyErr Json := do
  let hasThumb ← keyIn "thumbnail" link
  if hasThumb then
    pyIndex link "thumbnail"
  else
    let hasMods ← keyIn "modifiers" link
    if hasMods then
      let mods ← pyIndex link "modifiers"
      let hasTI ← keyIn "thumbnailImage" mods
      if hasTI then pyIndex mods "thumbnailImage" else .ok .null
    else
      .ok .null

/-- `capture_link` (lines 76-123).  `imgFetch` supplies the outcome of the
thumbnail HTTP GET for a given URL.  Returns the files written, in order: the
image bytes (when a truthy thumbnail was resolved) and then the markdown
descriptor. -/
def capture_link (imgFetch : String → HttpOutcome)
    (link_root image_root image_web_root : String) (link : Json) :
    Except PyErr (List FileWrite) := do
  let position ← pyIndex link "position"
  let priority ← pyAddOne position
  -- print(f"Collecting {link["title"]}...") looks the title up before anything else
  let title ← pyIndex link "title"
  let img ← resolve_img link
  let imgState ←
    if pyTruthy img then do
      let imgUrl ← pyAsStr img "split"
      let img_name := lastSegment imgUrl
      let img_fn := image_root ++ "/" ++ img_name
      let image_link := image_web_root ++ "/" ++ img_name
      let img_response ← requests_get (imgFetch imgUrl)
      Except.ok ([FileWrite.mk img_fn img_response.content],
        (some img_fn, some image_link))
    else
      Except.ok ([], ((none : Option String), (none : Option String)))
  let stub ← stub_title_py title
  let link_fn := link_root ++ "/" ++ stub ++ ".md"
  let url ← pyIndex link "url"
  let content := create_link_file url priority title imgState.2.1 imgState.2.2
  Except.ok (imgState.1 ++ [FileWrite.mk link_fn content])

/-! ## `collect_link_definitions` (lines 126-146) and the driver -/

/-- The list comprehension `[link for link in all_links if "url" in link]`
(line 144), with Python's left-to-right evaluation: the first entry on which
the membership test raises aborts the whole comprehension. -/
def valid_links : List Json → Except PyErr (List Json)
  | [] => .ok []
  | l :: ls => do
    let keep ← keyIn "url" l
    let rest ← valid_links ls
    .ok (if keep then l :: rest else rest)

/-- The membership test `"url" in link` of the comprehension, specialised to
dict entries: whether the entry has a `url` key.  (On non-dict values the
comprehension's test behaves differently; the claims about the normalizer
quantify over dict-shaped link entries.) -/
def entryHasUrl (j : Json) : Bool :=
  match j with
  | .obj fields => fields.any fun kv => kv.1 == "url"
  | _ => false

/-- The traversal `data["props"]["pageProps"]["links"]` (line 143). -/
def get_all_links (data : Json) : Except PyErr Json := do
  let props ← pyIndex data "props"
  let pageProps ← pyIndex props "pageProps"
  pyIndex pageProps "links"

/-- Whether a traversal segment is a dict. -/
def isDict : Json → Bool
  | .obj _ => true
  | _ => false

/-- Lines 143-146 of `collect_link_definitions`: traverse to the `links`
value, iterate it, and keep the entries containing a `url` key. -/
def collect_links_from_data (data : Json) : Except PyErr (List Json) := do
  let all_links ← get_all_links data
  let items ← pyIter all_links
  valid_links items

/-- `collect_link_definitions` (lines 126-146).  The third-party library calls
enter as parameters: `scripts` models `BeautifulSoup(...).find_all("script",
type="application/json")` followed by `.string` on each hit (which may be
`None`), and `parseJson` models `json.loads`.  `data_block[0]` raises
`IndexError` when no script block exists, and `json.loads(None)` raises
`TypeError`. -/
def collect_link_definitions (scripts : String → List (Option String))
    (parseJson : String → Except PyErr Json) (page : HttpOutcome) :
    Except PyErr (List Json) := do
  let response ← requests_get page
  let data_block := scripts response.content
  let firstBlock ← match data_block with
    | [] => .error (.indexError "list index out of range")
    | b :: _ => Except.ok b
  let data ← match firstBlock with
    | none => .error (.typeError "NoneType")
    | some s => parseJson s
  collect_links_from_data data

/-- Output directory constants (lines 23-25). -/
def LINK_ROOT : String := "../_links"

/-- Image output directory (line 24). -/
def IMAGE_ROOT : String := "../images"

/-- Web-facing image directory (line 25). -/
def IMAGE_WEB_ROOT : String := "/images"

/-- The driver loop (lines 152-153): process each collected link in order;
the first uncaught exception aborts the remaining links. -/
def process_links (imgFetch : String → HttpOutcome) :
    List Json → Except PyErr (List FileWrite)
  | [] => .ok []
  | l :: ls => do
    let ws ← capture_link imgFetch LINK_ROOT IMAGE_ROOT IMAGE_WEB_ROOT l
    let rest ← process_links imgFetch ls
    .ok (ws ++ rest)

/-- The whole script after argument parsing (lines 149-153): collect the link
definitions, then drive `capture_link` over them. -/
def script_run (scripts : String → List (Option String))
    (parseJson : String → Except PyErr Json) (page : HttpOutcome)
    (imgFetch : String → HttpOutcome) : Except PyErr (List FileWrite) := do
  let links ← collect_link_definitions scripts parseJson page
  process_links imgFetch links

/-! ## Character-level lemmas for slugification -/

theorem upper_range {c : Char} (h : ('A' ≤ c && c ≤ 'Z') = true) :
    65 ≤ c.toNat ∧ c.toNat ≤ 90 := by
  simp only [Bool.and_eq_true, decide_eq_true_eq] at h
  obtain ⟨h1, h2⟩ := h
  rw [Char.le_def] at h1 h2
  exact ⟨h1, h2⟩

theorem lowerChar_toNat {c : Char} (h : ('A' ≤ c && c ≤ 'Z') = true) :
    (lowerChar c).toNat = c.toNat + 32 := by
  obtain ⟨h1, h2⟩ := upper_range h
  have hv : Nat.isValidChar (c.toNat + 32) := Or.inl (by omega)
  unfold lowerChar
  rw [if_pos h, Char.ofNat, dif_pos hv]
  rfl

theorem lowerChar_of_not_upper {c : Char} (h : ('A' ≤ c && c ≤ 'Z') = false) :
    lowerChar c = c := by
  unfold lowerChar
  rw [if_neg (by simp [h])]

theorem lowerChar_not_upper (c : Char) :
    ('A' ≤ lowerChar c && lowerChar c ≤ 'Z') = false := by
  by_cases h : ('A' ≤ c && c ≤ 'Z') = true
  · have ht := lowerChar_toNat h
    obtain ⟨h1, h2⟩ := upper_range h
    by_contra hb
    rw [Bool.not_eq_false] at hb
    obtain ⟨g1, g2⟩ := upper_range hb
    omega
  · rw [Bool.not_eq_true] at h
    rw [lowerChar_of_not_upper h]
    exact h

theorem isLowerAlnum_range {c : Char} (h : isLowerAlnum c = true) :
    (97 ≤ c.toNat ∧ c.toNat ≤ 122) ∨ (48 ≤ c.toNat ∧ c.toNat ≤ 57) := by
  simp only [isLowerAlnum, Bool.or_eq_true, Bool.and_eq_true, decide_eq_true_eq] at h
  rcases h with ⟨h1, h2⟩ | ⟨h1, h2⟩
  · rw [Char.le_def] at h1 h2
    exact Or.inl ⟨h1, h2⟩
  · rw [Char.le_def] at h1 h2
    exact Or.inr ⟨h1, h2⟩

theorem isLowerAlnum_not_upper {c : Char} (h : isLowerAlnum c = true) :
    ('A' ≤ c && c ≤ 'Z') = false := by
  by_contra hb
  rw [Bool.not_eq_false] at hb
  obtain ⟨g1, g2⟩ := upper_range hb
  rcases isLowerAlnum_range h with ⟨h1, h2⟩ | ⟨h1, h2⟩ <;> omega

theorem isLowerAlnum_of_isAlnum {c : Char} (h1 : isAlnum c = true)
    (h2 : ('A' ≤ c && c ≤ 'Z') = false) : isLowerAlnum c = true := by
  unfold isAlnum at h1
  rw [h2] at h1
  simpa [isLowerAlnum] using h1

theorem isAlnum_of_isLowerAlnum {c : Char} (h : isLowerAlnum c = true) :
    isAlnum c = true := by
  unfold isLowerAlnum at h
  unfold isAlnum
  rcases Bool.or_eq_true _ _ |>.mp h with h1 | h1 <;> simp [h1]

/-! ## Lemmas about `collapseAux` -/

theorem mem_collapseAux {c : Char} (l : List Char) :
    ∀ b, c ∈ collapseAux b l → (c ∈ l ∧ isAlnum c = true) ∨ c = '-' := by
  induction l with
  | nil => intro b h; simp [collapseAux] at h
  | cons d ds ih =>
    intro b h
    by_cases ha : isAlnum d = true
    · rw [collapseAux, if_pos ha] at h
      rcases List.mem_cons.mp h with h1 | h1
      · subst h1
        exact Or.inl ⟨List.mem_cons_self _ _, ha⟩
      · rcases ih false h1 with ⟨hm, hA⟩ | hh
        · exact Or.inl ⟨List.mem_cons_of_mem _ hm, hA⟩
        · exact Or.inr hh
    · rw [collapseAux, if_neg ha] at h
      cases b with
      | true =>
        rw [if_pos rfl] at h
        rcases ih true h with ⟨hm, hA⟩ | hh
        · exact Or.inl ⟨List.mem_cons_of_mem _ hm, hA⟩
        · exact Or.inr hh
      | false =>
        rw [if_neg (by simp)] at h
        rcases List.mem_cons.mp h with h1 | h1
        · exact Or.inr h1
        · rcases ih true h1 with ⟨hm, hA⟩ | hh
          · exact Or.inl ⟨List.mem_cons_of_mem _ hm, hA⟩
          · exact Or.inr hh

theorem head_collapseAux_true {x : Char} (l : List Char)
    (h : (collapseAux true l).head? = some x) : isAlnum x = true := by
  induction l with
  | nil => simp [collapseAux] at h
  | cons d ds ih =>
    by_cases ha : isAlnum d = true
    · rw [collapseAux, if_pos ha] at h
      simp only [List.head?_cons, Option.some.injEq] at h
      subst h
      exact ha
    · rw [collapseAux, if_neg ha, if_pos rfl] at h
      exact ih h

theorem chain'_collapseAux (l : List Char) :
    ∀ b, List.Chain' NoTwoHyphens (collapseAux b l) := by
  induction l with
  | nil => intro b; rw [collapseAux]; exact List.chain'_nil
  | cons d ds ih =>
    intro b
    by_cases ha : isAlnum d = true
    · rw [collapseAux, if_pos ha]
      refine List.chain'_cons'.mpr ⟨?_, ih false⟩
      intro y _ hcon
      rw [hcon.1] at ha
      exact absurd ha (by decide)
    · rw [collapseAux, if_neg ha]
      cases b with
      | true =>
        rw [if_pos rfl]
        exact ih true
      | false =>
        rw [if_neg (by simp)]
        refine List.chain'_cons'.mpr ⟨?_, ih true⟩
        intro y hy hcon
        have hA : isAlnum y = true := head_collapseAux_true ds hy
        rw [hcon.2] at hA
        exact absurd hA (by decide)

theorem collapseAux_fixed (l : List Char) :
    ∀ b, (∀ c ∈ l, isAlnum c = true ∨ c = '-') →
    List.Chain' NoTwoHyphens l →
    l.getLast? ≠ some '-' →
    (b = true → l.head? ≠ some '-') →
    collapseAux b l = l := by
  induction l with
  | nil => intro b _ _ _ _; rw [collapseAux]
  | cons d ds ih =>
    intro b hchars hchain hlast hhead
    by_cases ha : isAlnum d = true
    · rw [collapseAux, if_pos ha]
      congr 1
      refine ih false (fun c hc => hchars c (List.mem_cons_of_mem _ hc))
        (List.chain'_cons'.mp hchain).2 ?_ (by simp)
      cases ds with
      | nil => simp
      | cons e es =>
        rw [List.getLast?_cons_cons] at hlast
        exact hlast
    · have hd : d = '-' := by
        rcases hchars d (List.mem_cons_self _ _) with h1 | h1
        · exact absurd h1 ha
        · exact h1
      have hb : b = false := by
        cases b with
        | false => rfl
        | true =>
          exfalso
          apply hhead rfl
          rw [hd]
          rfl
      subst hb
      rw [collapseAux, if_neg ha, if_neg (by simp)]
      cases ds with
      | nil =>
        exfalso
        apply hlast
        rw [hd]
        rfl
      | cons e es =>
        have hchain' := List.chain'_cons'.mp hchain
        have he : ¬(e = '-') := by
          intro h
          exact hchain'.1 e rfl ⟨hd, h⟩
        rw [hd]
        congr 1
        refine ih true (fun c hc => hchars c (List.mem_cons_of_mem _ hc)) hchain'.2 ?_ ?_
        · rw [List.getLast?_cons_cons] at hlast
          exact hlast
        · intro _ hcon
          simp only [List.head?_cons, Option.some.injEq] at hcon
          exact he hcon

/-! ## Lemmas about `dropWhile` and `stripEdgeHyphens` -/

theorem head?_dropWhile_not {p : Char → Bool} (l : List Char) :
    ∀ x, (l.dropWhile p).head? = some x → p x = false := by
  induction l with
  | nil => intro x h; simp at h
  | cons d ds ih =>
    intro x h
    rw [List.dropWhile_cons] at h
    by_cases hp : p d = true
    · rw [if_pos hp] at h
      exact ih x h
    · rw [if_neg hp] at h
      simp only [List.head?_cons, Option.some.injEq] at h
      subst h
      rw [Bool.not_eq_true] at hp
      exact hp

theorem dropWhile_eq_self_of_head {p : Char → Bool} {l : List Char}
    (h : ∀ x, l.head? = some x → p x = false) : l.dropWhile p = l := by
  cases l with
  | nil => rfl
  | cons d ds =>
    rw [List.dropWhile_cons, if_neg]
    simp [h d rfl]

theorem mem_stripEdgeHyphens {c : Char} {l : List Char}
    (h : c ∈ stripEdgeHyphens l) : c ∈ l := by
  unfold stripEdgeHyphens at h
  rw [List.mem_reverse] at h
  have h1 := (List.dropWhile_suffix (l := (l.dropWhile fun c => c == '-').reverse)
    (fun c => c == '-')).subset h
  rw [List.mem_reverse] at h1
  exact (List.dropWhile_suffix (fun c => c == '-')).subset h1

theorem stripEdge_head {l : List Char} {x : Char}
    (h : (stripEdgeHyphens l).head? = some x) : ¬(x = '-') := by
  intro hx
  subst hx
  unfold stripEdgeHyphens at h
  obtain ⟨t, ht⟩ := List.dropWhile_suffix (l := (l.dropWhile fun c => c == '-').reverse)
    (fun c => c == '-')
  cases hBr : ((l.dropWhile fun c => c == '-').reverse.dropWhile fun c => c == '-').reverse with
  | nil => rw [hBr] at h; simp at h
  | cons y ys =>
    rw [hBr] at h
    simp only [List.head?_cons, Option.some.injEq] at h
    have hAeq : (l.dropWhile fun c => c == '-') = y :: (ys ++ t.reverse) := by
      have h2 := congrArg List.reverse ht
      rw [List.reverse_append, List.reverse_reverse, hBr] at h2
      simpa using h2.symm
    have hp := head?_dropWhile_not (p := fun c => c == '-') l y (by rw [hAeq]; rfl)
    rw [h] at hp
    simp at hp

theorem stripEdge_getLast {l : List Char} {x : Char}
    (h : (stripEdgeHyphens l).getLast? = some x) : ¬(x = '-') := by
  unfold stripEdgeHyphens at h
  rw [List.getLast?_reverse] at h
  have := head?_dropWhile_not (p := fun c => c == '-') _ x h
  simpa using this

theorem noTwoHyphens_symm {a b : Char} (h : NoTwoHyphens a b) : NoTwoHyphens b a :=
  fun hc => h ⟨hc.2, hc.1⟩

theorem chain'_stripEdge {l : List Char} (h : List.Chain' NoTwoHyphens l) :
    List.Chain' NoTwoHyphens (stripEdgeHyphens l) := by
  unfold stripEdgeHyphens
  have h1 : List.Chain' NoTwoHyphens (l.dropWhile fun c => c == '-') :=
    h.suffix (List.dropWhile_suffix _)
  have h2 : List.Chain' NoTwoHyphens (l.dropWhile fun c => c == '-').reverse := by
    rw [List.chain'_reverse]
    exact h1.imp fun a b hab => noTwoHyphens_symm hab
  have h3 := h2.suffix (List.dropWhile_suffix (fun c => c == '-'))
  rw [List.chain'_reverse]
  exact h3.imp fun a b hab => noTwoHyphens_symm hab

/-! ## Slug facts assembled -/

theorem stub_title_chars {title : String} {c : Char}
    (h : c ∈ (stub_title title).data) : isLowerAlnum c = true ∨ c = '-' := by
  have h1 : c ∈ collapseAux false (title.data.map lowerChar) :=
    mem_stripEdgeHyphens h
  rcases mem_collapseAux _ false h1 with ⟨hm, ha⟩ | h2
  · left
    rw [List.mem_map] at hm
    obtain ⟨d, _, hd⟩ := hm
    have hup : ('A' ≤ c && c ≤ 'Z') = false := hd ▸ lowerChar_not_upper d
    exact isLowerAlnum_of_isAlnum ha hup
  · exact Or.inr h2

theorem stub_title_head {title : String} :
    (stub_title title).data.head? ≠ some '-' := fun h => stripEdge_head h rfl

theorem stub_title_getLast {title : String} :
    (stub_title title).data.getLast? ≠ some '-' := fun h => stripEdge_getLast h rfl

theorem stub_title_chain {title : String} :
    List.Chain' NoTwoHyphens (stub_title title).data :=
  chain'_stripEdge (chain'_collapseAux _ false)

theorem stub_title_idem (title : String) :
    stub_title (stub_title title) = stub_title title := by
  have hchars : ∀ c ∈ (stub_title title).data, isLowerAlnum c = true ∨ c = '-' :=
    fun c hc => stub_title_chars hc
  have hmap : (stub_title title).data.map lowerChar = (stub_title title).data := by
    rw [show (stub_title title).data.map lowerChar = (stub_title title).data.map id from
      List.map_congr_left ?_, List.map_id]
    intro c hc
    rcases hchars c hc with h1 | h1
    · exact lowerChar_of_not_upper (isLowerAlnum_not_upper h1)
    · subst h1
      exact lowerChar_of_not_upper (by decide)
  have hcoll : collapseAux false (stub_title title).data = (stub_title title).data := by
    refine collapseAux_fixed _ false ?_ stub_title_chain stub_title_getLast (by simp)
    intro c hc
    rcases hchars c hc with h1 | h1
    · exact Or.inl (isAlnum_of_isLowerAlnum h1)
    · exact Or.inr h1
  have hstrip : stripEdgeHyphens (stub_title title).data = (stub_title title).data := by
    have h1 : ∀ x, (stub_title title).data.head? = some x → (x == '-') = false := by
      intro x hx
      have hne : ¬(x = '-') := fun hc => stub_title_head (hc ▸ hx)
      simpa using hne
    have h2 : ∀ x, (stub_title title).data.reverse.head? = some x → (x == '-') = false := by
      intro x hx
      rw [List.head?_reverse] at hx
      have hne : ¬(x = '-') := fun hc => stub_title_getLast (hc ▸ hx)
      simpa using hne
    unfold stripEdgeHyphens
    rw [dropWhile_eq_self_of_head h1, dropWhile_eq_self_of_head h2, List.reverse_reverse]
  show (⟨stripEdgeHyphens (collapseNonAlnum ((stub_title title).data.map lowerChar))⟩ : String)
    = stub_title title
  unfold collapseNonAlnum
  rw [hmap, hcoll, hstrip]

/-! ## Claim C1 -/

/-- C1: for every title string, the slug computed by `stub_title` contains
only lowercase alphanumeric characters and hyphens, has no leading or trailing
hyphen, and `stub_title` is idempotent. -/
theorem stub_title_slug_properties (title : String) :
    (∀ c ∈ (stub_title title).data, isLowerAlnum c = true ∨ c = '-') ∧
    (stub_title title).data.head? ≠ some '-' ∧
    (stub_title title).data.getLast? ≠ some '-' ∧
    stub_title (stub_title title) = stub_title title :=
  ⟨fun _ hc => stub_title_chars hc, stub_title_head, stub_title_getLast,
    stub_title_idem title⟩

/-- Witness for C1 at the concrete title "My Site!": the theorem's idempotence
component applied there, together with the concretely evaluated slug. -/
theorem stub_title_slug_properties_witness :
    stub_title (stub_title "My Site!") = stub_title "My Site!" ∧
    stub_title "My Site!" = "my-site" :=
  ⟨(stub_title_slug_properties "My Site!").2.2.2, by decide⟩

/-! ## Monad-unfolding helpers -/

theorem ok_bind {α β : Type} (a : α) (f : α → Except PyErr β) :
    (Except.ok a >>= f) = f a := rfl

theorem error_bind {α β : Type} (e : PyErr) (f : α → Except PyErr β) :
    ((Except.error e : Except PyErr α) >>= f) = Except.error e := rfl

/-! ## Dict lookup vs membership -/

theorem any_eq_lookup_isSome (fs : List (String × Json)) (k : String) :
    (fs.any fun kv => kv.1 == k) = (fs.lookup k).isSome := by
  induction fs with
  | nil => rfl
  | cons kv rest ih =>
    obtain ⟨k', v⟩ := kv
    by_cases h : k' = k
    · subst h
      simp [List.lookup_cons, List.any_cons]
    · have h1 : (k' == k) = false := by simp [h]
      have h2 : (k == k') = false := by
        simp only [beq_eq_false_iff_ne]
        exact fun hc => h hc.symm
      simp only [List.lookup_cons, List.any_cons, h1, h2, Bool.false_or]
      exact ih

/-! ## Claim C2 -/

/-- C2: the comprehension `[link for link in all_links if "url" in link]` keeps
exactly the (dict-shaped) entries possessing a `url` key: it equals the order
preserving `filter`, whose length is the count of entries with a `url` key,
which is a sublist of the input, and which contains an input entry iff that
entry has a `url` key. -/
theorem valid_links_filter (links : List Json)
    (h : ∀ l ∈ links, isDict l = true) :
    valid_links links = .ok (links.filter entryHasUrl) ∧
    (links.filter entryHasUrl).length = links.countP entryHasUrl ∧
    (links.filter entryHasUrl).Sublist links ∧
    (∀ l ∈ links, (l ∈ links.filter entryHasUrl ↔ entryHasUrl l = true)) := by
  refine ⟨?_, (List.countP_eq_length_filter _ _).symm, List.filter_sublist _, ?_⟩
  · induction links with
    | nil => rfl
    | cons l ls ih =>
      have hl := h l (List.mem_cons_self _ _)
      have hrest := ih fun x hx => h x (List.mem_cons_of_mem _ hx)
      cases l with
      | obj fs =>
        rw [valid_links, keyIn, ok_bind, hrest, ok_bind]
        rw [List.filter_cons]
        cases hb : entryHasUrl (Json.obj fs) with
        | true =>
          have hb' : (fs.any fun kv => kv.1 == "url") = true := hb
          rw [hb']
        | false =>
          have hb' : (fs.any fun kv => kv.1 == "url") = false := hb
          rw [hb']
      | null => simp [isDict] at hl
      | bool b => simp [isDict] at hl
      | num n => simp [isDict] at hl
      | str s => simp [isDict] at hl
      | arr xs => simp [isDict] at hl
  · intro l hl
    rw [List.mem_filter]
    exact ⟨fun h' => h'.2, fun h' => ⟨hl, h'⟩⟩

/-- Witness for C2 on a concrete entry list: the entry lacking `url` is
dropped, the one possessing it is kept in place. -/
theorem valid_links_filter_witness :
    valid_links [Json.obj [("url", Json.str "https://a")],
        Json.obj [("title", Json.str "x")]] =
      .ok [Json.obj [("url", Json.str "https://a")]] := by
  have h := (valid_links_filter
    [Json.obj [("url", Json.str "https://a")], Json.obj [("title", Json.str "x")]]
    (by decide)).1
  exact h

/-! ## Thumbnail resolution helpers -/

theorem resolve_img_thumb {fs : List (String × Json)} {v : Json}
    (hv : fs.lookup "thumbnail" = some v) :
    resolve_img (.obj fs) = .ok v := by
  have hany : (fs.any fun kv => kv.1 == "thumbnail") = true := by
    rw [any_eq_lookup_isSome, hv]
    rfl
  rw [resolve_img]
  rw [keyIn, ok_bind, hany]
  simp only [if_true]
  rw [pyIndex, hv]

theorem resolve_img_modifier {fs : List (String × Json)} {ms : List (String × Json)}
    {w : Json} (hnone : fs.lookup "thumbnail" = none)
    (hmods : fs.lookup "modifiers" = some (.obj ms))
    (hw : ms.lookup "thumbnailImage" = some w) :
    resolve_img (.obj fs) = .ok w := by
  have hany : (fs.any fun kv => kv.1 == "thumbnail") = false := by
    rw [any_eq_lookup_isSome, hnone]
    rfl
  have hanyM : (fs.any fun kv => kv.1 == "modifiers") = true := by
    rw [any_eq_lookup_isSome, hmods]
    rfl
  have hanyW : (ms.any fun kv => kv.1 == "thumbnailImage") = true := by
    rw [any_eq_lookup_isSome, hw]
    rfl
  rw [resolve_img]
  rw [keyIn, ok_bind, hany]
  simp only [Bool.false_eq_true, if_false]
  rw [keyIn, ok_bind, hanyM]
  simp only [if_true]
  rw [pyIndex, hmods, ok_bind, keyIn, ok_bind, hanyW]
  simp only [if_true]
  rw [pyIndex, hw]

theorem resolve_img_none_noMods {fs : List (String × Json)}
    (hnone : fs.lookup "thumbnail" = none)
    (hmods : fs.lookup "modifiers" = none) :
    resolve_img (.obj fs) = .ok .null := by
  have hany : (fs.any fun kv => kv.1 == "thumbnail") = false := by
    rw [any_eq_lookup_isSome, hnone]
    rfl
  have hanyM : (fs.any fun kv => kv.1 == "modifiers") = false := by
    rw [any_eq_lookup_isSome, hmods]
    rfl
  rw [resolve_img]
  rw [keyIn, ok_bind, hany]
  simp only [Bool.false_eq_true, if_false]
  rw [keyIn, ok_bind, hanyM]
  simp only [Bool.false_eq_true, if_false]

theorem resolve_img_none_modsNoTI {fs : List (String × Json)}
    {ms : List (String × Json)} (hnone : fs.lookup "thumbnail" = none)
    (hmods : fs.lookup "modifiers" = some (.obj ms))
    (hti : ms.lookup "thumbnailImage" = none) :
    resolve_img (.obj fs) = .ok .null := by
  have hany : (fs.any fun kv => kv.1 == "thumbnail") = false := by
    rw [any_eq_lookup_isSome, hnone]
    rfl
  have hanyM : (fs.any fun kv => kv.1 == "modifiers") = true := by
    rw [any_eq_lookup_isSome, hmods]
    rfl
  have hanyW : (ms.any fun kv => kv.1 == "thumbnailImage") = false := by
    rw [any_eq_lookup_isSome, hti]
    rfl
  rw [resolve_img]
  rw [keyIn, ok_bind, hany]
  simp only [Bool.false_eq_true, if_false]
  rw [keyIn, ok_bind, hanyM]
  simp only [if_true]
  rw [pyIndex, hmods, ok_bind, keyIn, ok_bind, hanyW]
  simp only [Bool.false_eq_true, if_false]

/-! ## Claim C3 -/

/-- C3: thumbnail resolution order in `capture_link`: a present `thumbnail`
key wins (whatever `modifiers` holds), otherwise `modifiers.thumbnailImage`
is used when present, otherwise the entry resolves to no image (`None`). -/
theorem resolve_img_resolution (fs : List (String × Json)) :
    (∀ v, fs.lookup "thumbnail" = some v → resolve_img (.obj fs) = .ok v) ∧
    (∀ ms w, fs.lookup "thumbnail" = none →
      fs.lookup "modifiers" = some (.obj ms) →
      ms.lookup "thumbnailImage" = some w → resolve_img (.obj fs) = .ok w) ∧
    (fs.lookup "thumbnail" = none → fs.lookup "modifiers" = none →
      resolve_img (.obj fs) = .ok .null) ∧
    (∀ ms, fs.lookup "thumbnail" = none →
      fs.lookup "modifiers" = some (.obj ms) →
      ms.lookup "thumbnailImage" = none → resolve_img (.obj fs) = .ok .null) :=
  ⟨fun _ hv => resolve_img_thumb hv,
   fun _ _ h1 h2 h3 => resolve_img_modifier h1 h2 h3,
   fun h1 h2 => resolve_img_none_noMods h1 h2,
   fun _ h1 h2 h3 => resolve_img_none_modsNoTI h1 h2 h3⟩

/-- Witness for C3: all four resolution cases applied at concrete entries; in
the first, `thumbnail` wins although `modifiers.thumbnailImage` is present. -/
theorem resolve_img_resolution_witness :
    resolve_img (.obj [("thumbnail", Json.str "T"),
        ("modifiers", Json.obj [("thumbnailImage", Json.str "M")])]) =
      .ok (Json.str "T") ∧
    resolve_img (.obj [("modifiers", Json.obj [("thumbnailImage", Json.str "M")])]) =
      .ok (Json.str "M") ∧
    resolve_img (.obj [("title", Json.str "x")]) = .ok .null ∧
    resolve_img (.obj [("modifiers", Json.obj [])]) = .ok .null :=
  ⟨(resolve_img_resolution _).1 _ rfl,
   (resolve_img_resolution _).2.1 _ _ rfl rfl rfl,
   (resolve_img_resolution _).2.2.1 rfl rfl,
   (resolve_img_resolution _).2.2.2 _ rfl rfl rfl⟩

/-! ## `pyIndex` on dicts -/

theorem pyIndex_obj {fs : List (String × Json)} {k : String} {v : Json}
    (h : fs.lookup k = some v) : pyIndex (.obj fs) k = .ok v := by
  rw [pyIndex, h]

theorem pyIndex_obj_none {fs : List (String × Json)} {k : String}
    (h : fs.lookup k = none) : pyIndex (.obj fs) k = .error (.keyError k) := by
  rw [pyIndex, h]

/-! ## Descriptor layout -/

theorem create_link_file_renders (url : Json) (priority : Int) (title : Json)
    (img_fn : Option String) (image_link : Option String) :
    create_link_file url priority title img_fn image_link =
      renderLines (descriptor_spec_lines url priority title img_fn image_link) := by
  unfold create_link_file descriptor_spec_lines renderLines
  cases hb : pyTruthyOptStr img_fn with
  | true => simp [hb, String.join, ← String.append_assoc]
  | false => simp [hb, String.join, ← String.append_assoc]

/-! ## Inversion of a successful `capture_link` -/

theorem capture_link_ok {imgFetch : String → HttpOutcome} {lr ir iwr : String}
    {link : Json} {ws : List FileWrite}
    (h : capture_link imgFetch lr ir iwr link = .ok ws) :
    ∃ position priority title img imgws ifn il stub url,
      pyIndex link "position" = .ok position ∧
      pyAddOne position = .ok priority ∧
      pyIndex link "title" = .ok title ∧
      resolve_img link = .ok img ∧
      stub_title_py title = .ok stub ∧
      pyIndex link "url" = .ok url ∧
      ws = imgws ++ [FileWrite.mk (lr ++ "/" ++ stub ++ ".md")
        (create_link_file url priority title ifn il)] := by
  unfold capture_link at h
  cases h1 : pyIndex link "position" with
  | error e => simp only [h1, error_bind] at h; exact Except.noConfusion h
  | ok position =>
  simp only [h1, ok_bind] at h
  cases h2 : pyAddOne position with
  | error e => simp only [h2, error_bind] at h; exact Except.noConfusion h
  | ok priority =>
  simp only [h2, ok_bind] at h
  cases h3 : pyIndex link "title" with
  | error e => simp only [h3, error_bind] at h; exact Except.noConfusion h
  | ok title =>
  simp only [h3, ok_bind] at h
  cases h4 : resolve_img link with
  | error e => simp only [h4, error_bind] at h; exact Except.noConfusion h
  | ok img =>
  simp only [h4, ok_bind] at h
  cases hT : pyTruthy img with
  | false =>
    rw [hT] at h
    simp only [Bool.false_eq_true, if_false, ok_bind] at h
    cases h5 : stub_title_py title with
    | error e => simp only [h5, error_bind] at h; exact Except.noConfusion h
    | ok stub =>
    simp only [h5, ok_bind] at h
    cases h6 : pyIndex link "url" with
    | error e => simp only [h6, error_bind] at h; exact Except.noConfusion h
    | ok url =>
    simp only [h6, ok_bind] at h
    refine ⟨position, priority, title, img, [], none, none, stub, url,
      rfl, h2, rfl, rfl, h5, rfl, ?_⟩
    injection h with h
    exact h.symm
  | true =>
    rw [hT] at h
    simp only [if_true] at h
    cases h7 : pyAsStr img "split" with
    | error e => simp only [h7, error_bind] at h; exact Except.noConfusion h
    | ok imgUrl =>
    simp only [h7, ok_bind] at h
    cases h8 : requests_get (imgFetch imgUrl) with
    | error e => simp only [h8, error_bind] at h; exact Except.noConfusion h
    | ok resp =>
    simp only [h8, ok_bind] at h
    cases h5 : stub_title_py title with
    | error e => simp only [h5, error_bind] at h; exact Except.noConfusion h
    | ok stub =>
    simp only [h5, ok_bind] at h
    cases h6 : pyIndex link "url" with
    | error e => simp only [h6, error_bind] at h; exact Except.noConfusion h
    | ok url =>
    simp only [h6, ok_bind] at h
    refine ⟨position, priority, title, img,
      [FileWrite.mk (ir ++ "/" ++ lastSegment imgUrl) resp.content],
      some (ir ++ "/" ++ lastSegment imgUrl),
      some (iwr ++ "/" ++ lastSegment imgUrl), stub, url,
      rfl, h2, rfl, rfl, h5, rfl, ?_⟩
    injection h with h
    exact h.symm

/-! ## Claim C4 -/

/-- C4: the descriptor content written by `create_link_file` is exactly the
fixed-order sequence of lines the spec gives — `---`, `title:`, `link:`,
`priority:`, an `image:` line only when an image reference exists, `---`, and
a blank line — and a successful `capture_link` writes that content to
`{link root}/{slug}.md` where the slug comes from `stub_title`. -/
theorem create_link_file_descriptor :
    (∀ (url : Json) (priority : Int) (title : Json) (img_fn : Option String)
        (image_link : Option String),
      create_link_file url priority title img_fn image_link =
        renderLines (descriptor_spec_lines url priority title img_fn image_link) ∧
      (pyTruthyOptStr img_fn = false →
        descriptor_spec_lines url priority title img_fn image_link =
          ["---", "title: " ++ pyStr title, "link: " ++ pyStr url,
            "priority: " ++ toString priority, "---", ""]) ∧
      (pyTruthyOptStr img_fn = true →
        descriptor_spec_lines url priority title img_fn image_link =
          ["---", "title: " ++ pyStr title, "link: " ++ pyStr url,
            "priority: " ++ toString priority,
            "image: " ++ pyStrOptStr image_link, "---", ""])) ∧
    (∀ (imgFetch : String → HttpOutcome) (lr ir iwr : String) (link : Json)
        (ws : List FileWrite),
      capture_link imgFetch lr ir iwr link = .ok ws →
      ∃ title stub url priority ifn il,
        pyIndex link "title" = .ok title ∧
        stub_title_py title = .ok stub ∧
        ws.getLast? = some (FileWrite.mk (lr ++ "/" ++ stub ++ ".md")
          (create_link_file url priority title ifn il))) := by
  constructor
  · intro url priority title img_fn image_link
    refine ⟨create_link_file_renders url priority title img_fn image_link, ?_, ?_⟩
    · intro hb
      unfold descriptor_spec_lines
      rw [hb]
      rfl
    · intro hb
      unfold descriptor_spec_lines
      rw [hb]
      rfl
  · intro imgFetch lr ir iwr link ws h
    obtain ⟨position, priority, title, img, imgws, ifn, il, stub, url,
      _, _, h3, _, h5, _, hws⟩ := capture_link_ok h
    refine ⟨title, stub, url, priority, ifn, il, h3, h5, ?_⟩
    rw [hws, List.getLast?_concat]

/-- Witness for C4: the no-image descriptor content at concrete arguments, and
the path/content of a concrete successful capture. -/
theorem create_link_file_descriptor_witness :
    create_link_file (Json.str "https://example.com") 1 (Json.str "My Site!")
        none none =
      renderLines ["---", "title: My Site!", "link: https://example.com",
        "priority: 1", "---", ""] ∧
    (∃ title stub url priority ifn il,
      pyIndex (Json.obj [("position", Json.num 0), ("title", Json.str "My Site!"),
        ("url", Json.str "https://example.com")]) "title" = .ok title ∧
      stub_title_py title = .ok stub ∧
      ([FileWrite.mk "../_links/my-site.md"
          "---\ntitle: My Site!\nlink: https://example.com\npriority: 1\n---\n\n"] :
            List FileWrite).getLast? =
        some (FileWrite.mk ("../_links" ++ "/" ++ stub ++ ".md")
          (create_link_file url priority title ifn il))) := by
  constructor
  · have h := (create_link_file_descriptor.1 (Json.str "https://example.com") 1
      (Json.str "My Site!") none none)
    rw [h.1, h.2.1 rfl]
    rfl
  · exact create_link_file_descriptor.2 (fun _ => .response 200 "") "../_links"
      "../images" "/images"
      (Json.obj [("position", Json.num 0), ("title", Json.str "My Site!"),
        ("url", Json.str "https://example.com")])
      [FileWrite.mk "../_links/my-site.md"
        "---\ntitle: My Site!\nlink: https://example.com\npriority: 1\n---\n\n"]
      (by rfl)

/-! ## Claim C7 -/

/-- C7: for every link entry whose `position` is the integer `n`, a successful
`capture_link` writes a descriptor whose priority field is `n + 1` (zero-based
source positions become one-based priorities). -/
theorem capture_priority_position (imgFetch : String → HttpOutcome)
    (lr ir iwr : String) (fs : List (String × Json)) (n : Int)
    (ws : List FileWrite)
    (hpos : fs.lookup "position" = some (.num n))
    (hok : capture_link imgFetch lr ir iwr (.obj fs) = .ok ws) :
    ∃ path url title ifn il,
      ws.getLast? = some (FileWrite.mk path
        (create_link_file url (n + 1) title ifn il)) := by
  obtain ⟨position, priority, title, img, imgws, ifn, il, stub, url,
    h1, h2, _, _, _, _, hws⟩ := capture_link_ok hok
  rw [pyIndex_obj hpos] at h1
  injection h1 with h1
  subst h1
  rw [show pyAddOne (.num n) = .ok (n + 1) from rfl] at h2
  injection h2 with h2
  subst h2
  exact ⟨lr ++ "/" ++ stub ++ ".md", url, title, ifn, il,
    by rw [hws, List.getLast?_concat]⟩

/-- Witness for C7: a concrete capture at position 0 yields a descriptor with
priority 0 + 1. -/
theorem capture_priority_position_witness :
    ∃ path url title ifn il,
      ([FileWrite.mk "../_links/my-site.md"
          "---\ntitle: My Site\nlink: https://example.com\npriority: 1\n---\n\n"] :
        List FileWrite).getLast? = some (FileWrite.mk path
          (create_link_file url (0 + 1) title ifn il)) :=
  capture_priority_position (fun _ => .response 200 "") "../_links" "../images"
    "/images"
    [("position", Json.num 0), ("title", Json.str "My Site"),
      ("url", Json.str "https://example.com")] 0
    [FileWrite.mk "../_links/my-site.md"
      "---\ntitle: My Site\nlink: https://example.com\npriority: 1\n---\n\n"]
    rfl (by rfl)

/-! ## Claim C8 -/

/-- C8: a non-empty `thumbnail` URL is materialized: the image filename is the
final path segment of the URL, the response bytes are written to
`{image root}/{filename}`, and the descriptor's image reference is
`{image web root}/{filename}`. -/
theorem capture_image_materialization (imgFetch : String → HttpOutcome)
    (lr ir iwr : String) (fs : List (String × Json)) (u : String) (n : Int)
    (t : String) (uj : Json) (st : Nat) (body : String)
    (hthumb : fs.lookup "thumbnail" = some (.str u))
    (hne : u.isEmpty = false)
    (hpos : fs.lookup "position" = some (.num n))
    (htitle : fs.lookup "title" = some (.str t))
    (hurl : fs.lookup "url" = some uj)
    (hfetch : imgFetch u = .response st body) :
    capture_link imgFetch lr ir iwr (.obj fs) = .ok
      [FileWrite.mk (ir ++ "/" ++ lastSegment u) body,
       FileWrite.mk (lr ++ "/" ++ stub_title t ++ ".md")
         (create_link_file uj (n + 1) (.str t)
           (some (ir ++ "/" ++ lastSegment u))
           (some (iwr ++ "/" ++ lastSegment u)))] := by
  unfold capture_link
  rw [pyIndex_obj hpos, ok_bind]
  rw [show pyAddOne (.num n) = .ok (n + 1) from rfl, ok_bind]
  rw [pyIndex_obj htitle, ok_bind]
  rw [resolve_img_thumb hthumb, ok_bind]
  rw [show pyTruthy (.str u) = !u.isEmpty from rfl, hne]
  simp only [Bool.not_false, if_true]
  rw [show pyAsStr (.str u) "split" = .ok u from rfl, ok_bind]
  rw [hfetch]
  rw [show requests_get (.response st body) = .ok ⟨st, body⟩ from rfl, ok_bind,
    ok_bind]
  rw [show stub_title_py (.str t) = .ok (stub_title t) from rfl, ok_bind]
  rw [pyIndex_obj hurl, ok_bind]
  rfl

/-- Witness for C8, the spec's own example: thumbnail
`https://cdn.example.com/abc.png` yields the file `abc.png` under the image
root and the descriptor reference `/images/abc.png`. -/
theorem capture_image_materialization_witness :
    capture_link (fun _ => .response 200 "PNGBYTES") "../_links" "../images"
        "/images"
        (.obj [("position", Json.num 0), ("title", Json.str "My Site"),
          ("url", Json.str "https://example.com"),
          ("thumbnail", Json.str "https://cdn.example.com/abc.png")]) = .ok
      [FileWrite.mk ("../images" ++ "/" ++
          lastSegment "https://cdn.example.com/abc.png") "PNGBYTES",
       FileWrite.mk ("../_links" ++ "/" ++ stub_title "My Site" ++ ".md")
         (create_link_file (Json.str "https://example.com") (0 + 1)
           (Json.str "My Site")
           (some ("../images" ++ "/" ++
             lastSegment "https://cdn.example.com/abc.png"))
           (some ("/images" ++ "/" ++
             lastSegment "https://cdn.example.com/abc.png")))] ∧
    "../images" ++ "/" ++ lastSegment "https://cdn.example.com/abc.png" =
      "../images/abc.png" ∧
    "/images" ++ "/" ++ lastSegment "https://cdn.example.com/abc.png" =
      "/images/abc.png" :=
  ⟨capture_image_materialization _ _ _ _ _ _ _ _ _ _ _ rfl rfl rfl rfl rfl rfl,
    by decide, by decide⟩

/-! ## Claim C9 -/

/-- C9 (implicit): an entry holding a `url` key but no `position` (or no
`title`) passes the normalizer's filter, yet `capture_link`'s unguarded dict
subscriptions raise a `KeyError` that the driver loop does not catch, aborting
the whole run. -/
theorem url_without_position_or_title_aborts :
    (∀ fs : List (String × Json), (fs.lookup "url").isSome = true →
      fs.lookup "position" = none →
      valid_links [Json.obj fs] = .ok [Json.obj fs] ∧
      ∀ (imgFetch : String → HttpOutcome) (lr ir iwr : String),
        capture_link imgFetch lr ir iwr (.obj fs) =
          .error (.keyError "position")) ∧
    (∀ (fs : List (String × Json)) (n : Int),
      (fs.lookup "url").isSome = true →
      fs.lookup "position" = some (.num n) → fs.lookup "title" = none →
      ∀ (imgFetch : String → HttpOutcome) (lr ir iwr : String),
        capture_link imgFetch lr ir iwr (.obj fs) =
          .error (.keyError "title")) ∧
    (∀ (imgFetch : String → HttpOutcome) (l : Json) (ls : List Json)
        (e : PyErr),
      capture_link imgFetch LINK_ROOT IMAGE_ROOT IMAGE_WEB_ROOT l = .error e →
      process_links imgFetch (l :: ls) = .error e) := by
  refine ⟨?_, ?_, ?_⟩
  · intro fs hurl hpos
    constructor
    · have hany : (fs.any fun kv => kv.1 == "url") = true := by
        rw [any_eq_lookup_isSome]
        exact hurl
      rw [valid_links, keyIn, ok_bind, hany]
      rfl
    · intro imgFetch lr ir iwr
      unfold capture_link
      rw [pyIndex_obj_none hpos, error_bind]
  · intro fs n hurl hpos htitle imgFetch lr ir iwr
    unfold capture_link
    rw [pyIndex_obj hpos, ok_bind]
    rw [show pyAddOne (.num n) = .ok (n + 1) from rfl, ok_bind]
    rw [pyIndex_obj_none htitle, error_bind]
  · intro imgFetch l ls e h
    rw [process_links, h, error_bind]

/-- Witness for C9: the concrete entry `{"url": "https://a"}` passes the
filter, `capture_link` fails with `KeyError("position")`, the driver aborts;
with a `position` but no `title`, `KeyError("title")`. -/
theorem url_without_position_or_title_aborts_witness :
    valid_links [Json.obj [("url", Json.str "https://a")]] =
      .ok [Json.obj [("url", Json.str "https://a")]] ∧
    capture_link (fun _ => .connError) LINK_ROOT IMAGE_ROOT IMAGE_WEB_ROOT
      (.obj [("url", Json.str "https://a")]) = .error (.keyError "position") ∧
    process_links (fun _ => .connError)
      [Json.obj [("url", Json.str "https://a")]] =
      .error (.keyError "position") ∧
    capture_link (fun _ => .connError) "L" "I" "W"
      (.obj [("url", Json.str "https://a"), ("position", Json.num 0)]) =
      .error (.keyError "title") := by
  have h := url_without_position_or_title_aborts
  have h1 := h.1 [("url", Json.str "https://a")] rfl rfl
  exact ⟨h1.1, h1.2 _ LINK_ROOT IMAGE_ROOT IMAGE_WEB_ROOT,
    h.2.2 _ _ [] _ (h1.2 _ LINK_ROOT IMAGE_ROOT IMAGE_WEB_ROOT),
    h.2.1 [("url", Json.str "https://a"), ("position", Json.num 0)] 0 rfl rfl
      rfl _ "L" "I" "W"⟩

/-! ## Claim C10 -/

/-- C10 (implicit): a present-but-falsy `thumbnail` value (`None` or the empty
string) is selected — the `modifiers.thumbnailImage` fallback is never
consulted, since it applies only when the `thumbnail` key is absent — and
being falsy it triggers no download: the only write is a descriptor with no
`image:` line. -/
theorem capture_falsy_thumbnail (imgFetch : String → HttpOutcome)
    (lr ir iwr : String) (fs : List (String × Json)) (v : Json) (n : Int)
    (t : String) (uj : Json)
    (hthumb : fs.lookup "thumbnail" = some v)
    (hfalsy : v = .null ∨ v = .str "")
    (hpos : fs.lookup "position" = some (.num n))
    (htitle : fs.lookup "title" = some (.str t))
    (hurl : fs.lookup "url" = some uj) :
    capture_link imgFetch lr ir iwr (.obj fs) = .ok
      [FileWrite.mk (lr ++ "/" ++ stub_title t ++ ".md")
        (create_link_file uj (n + 1) (.str t) none none)] ∧
    descriptor_spec_lines uj (n + 1) (.str t) none none =
      ["---", "title: " ++ pyStr (.str t), "link: " ++ pyStr uj,
        "priority: " ++ toString (n + 1), "---", ""] := by
  constructor
  · have hfT : pyTruthy v = false := by
      rcases hfalsy with h | h <;> subst h <;> rfl
    unfold capture_link
    rw [pyIndex_obj hpos, ok_bind]
    rw [show pyAddOne (.num n) = .ok (n + 1) from rfl, ok_bind]
    rw [pyIndex_obj htitle, ok_bind]
    rw [resolve_img_thumb hthumb, ok_bind]
    rw [hfT]
    simp only [Bool.false_eq_true, if_false, ok_bind]
    rw [show stub_title_py (.str t) = .ok (stub_title t) from rfl, ok_bind]
    rw [pyIndex_obj hurl, ok_bind]
    rfl
  · rfl

/-- Witness for C10: thumbnail `None` with a populated
`modifiers.thumbnailImage` still yields no image write and no `image:` line
(the image fetch oracle would fail if it were ever consulted). -/
theorem capture_falsy_thumbnail_witness :
    capture_link (fun _ => .connError) "L" "I" "W"
      (.obj [("thumbnail", Json.null),
        ("modifiers", Json.obj [("thumbnailImage", Json.str "https://cdn/x.png")]),
        ("position", Json.num 0), ("title", Json.str "A B"),
        ("url", Json.str "https://a")]) = .ok
      [FileWrite.mk ("L" ++ "/" ++ stub_title "A B" ++ ".md")
        (create_link_file (Json.str "https://a") (0 + 1) (Json.str "A B")
          none none)] :=
  (capture_falsy_thumbnail (fun _ => .connError) "L" "I" "W"
    [("thumbnail", Json.null),
      ("modifiers", Json.obj [("thumbnailImage", Json.str "https://cdn/x.png")]),
      ("position", Json.num 0), ("title", Json.str "A B"),
      ("url", Json.str "https://a")]
    Json.null 0 "A B" (Json.str "https://a")
    rfl (Or.inl rfl) rfl rfl rfl).1

/-! ## Claim C5 (corrected) -/

/-- C5 counterexample: when the `links` segment is present but of the wrong
shape (a string instead of a sequence of entries), the extractor raises no
error at all and the pipeline returns a silent empty result. -/
theorem collect_links_silent_empty :
    collect_links_from_data (.obj [("props", Json.obj [("pageProps",
      Json.obj [("links", Json.str "")])])]) = .ok [] := rfl

/-- C5 (amended): when the traversal `data["props"]["pageProps"]["links"]`
itself fails — the document or an intermediate segment is not a dict, or a
key along the path is absent — the script raises an uncaught error naming the
absent segment (`KeyError`) or the actual type found (`TypeError`), and the
error propagates through `collect_link_definitions`; but a present `links`
value of the wrong shape incurs no shape check (see the counterexample). -/
theorem get_all_links_path_errors (data : Json) :
    (isDict data = false →
      get_all_links data = .error (.typeError (pyTypeName data))) ∧
    (∀ fs, data = .obj fs → fs.lookup "props" = none →
      get_all_links data = .error (.keyError "props")) ∧
    (∀ fs p, data = .obj fs → fs.lookup "props" = some p → isDict p = false →
      get_all_links data = .error (.typeError (pyTypeName p))) ∧
    (∀ fs ps, data = .obj fs → fs.lookup "props" = some (.obj ps) →
      ps.lookup "pageProps" = none →
      get_all_links data = .error (.keyError "pageProps")) ∧
    (∀ fs ps pp, data = .obj fs → fs.lookup "props" = some (.obj ps) →
      ps.lookup "pageProps" = some pp → isDict pp = false →
      get_all_links data = .error (.typeError (pyTypeName pp))) ∧
    (∀ fs ps qs, data = .obj fs → fs.lookup "props" = some (.obj ps) →
      ps.lookup "pageProps" = some (.obj qs) → qs.lookup "links" = none →
      get_all_links data = .error (.keyError "links")) ∧
    (∀ e, get_all_links data = .error e →
      collect_links_from_data data = .error e) := by
  refine ⟨?_, ?_, ?_, ?_, ?_, ?_, ?_⟩
  · intro h
    cases data with
    | obj fs => simp [isDict] at h
    | null => rfl
    | bool b => rfl
    | num n => rfl
    | str s => rfl
    | arr xs => rfl
  · intro fs hd hnone
    subst hd
    unfold get_all_links
    rw [pyIndex_obj_none hnone, error_bind]
  · intro fs p hd hp hdp
    subst hd
    unfold get_all_links
    rw [pyIndex_obj hp, ok_bind]
    cases p with
    | obj qs => simp [isDict] at hdp
    | null => rfl
    | bool b => rfl
    | num m => rfl
    | str s => rfl
    | arr xs => rfl
  · intro fs ps hd hp hnone
    subst hd
    unfold get_all_links
    rw [pyIndex_obj hp, ok_bind, pyIndex_obj_none hnone, error_bind]
  · intro fs ps pp hd hp hpp hdp
    subst hd
    unfold get_all_links
    rw [pyIndex_obj hp, ok_bind, pyIndex_obj hpp, ok_bind]
    cases pp with
    | obj qs => simp [isDict] at hdp
    | null => rfl
    | bool b => rfl
    | num m => rfl
    | str s => rfl
    | arr xs => rfl
  · intro fs ps qs hd hp hpp hnone
    subst hd
    unfold get_all_links
    rw [pyIndex_obj hp, ok_bind, pyIndex_obj hpp, ok_bind,
      pyIndex_obj_none hnone]
  · intro e h
    unfold collect_links_from_data
    rw [h, error_bind]

/-- Witness for the amended C5: a missing `pageProps` raises
`KeyError("pageProps")`, a non-dict document raises `TypeError("str")`, and a
missing `props` propagates out of the collector. -/
theorem get_all_links_path_errors_witness :
    get_all_links (.obj [("props", Json.obj [])]) =
      .error (.keyError "pageProps") ∧
    get_all_links (Json.str "oops") = .error (.typeError "str") ∧
    collect_links_from_data (Json.obj []) = .error (.keyError "props") :=
  ⟨(get_all_links_path_errors _).2.2.2.1 [("props", Json.obj [])] [] rfl rfl
      rfl,
   (get_all_links_path_errors _).1 rfl,
   (get_all_links_path_errors _).2.2.2.2.2.2 _
     ((get_all_links_path_errors _).2.1 [] rfl rfl)⟩

/-! ## Claim C6 (corrected) -/

/-- C6 counterexample: a non-success HTTP status raises nothing — the script
never calls `raise_for_status` or reads `status_code`, so a 404 page is
returned and handed to the parser (which here then fails with an IndexError,
not a network error). -/
theorem requests_get_status_not_checked :
    requests_get (.response 404 "Not Found") = .ok ⟨404, "Not Found"⟩ ∧
    collect_link_definitions (fun _ => []) (fun _ => .error (.typeError "str"))
      (.response 404 "Not Found") =
      .error (.indexError "list index out of range") :=
  ⟨rfl, rfl⟩

/-- C6 (amended): the page GET raises the requests exceptions on connection
errors and timeouts, and nothing catches them — they propagate through
`collect_link_definitions` and terminate the whole run; a response is returned
for every HTTP status without inspection. -/
theorem page_fetch_error_propagation (scripts : String → List (Option String))
    (parseJson : String → Except PyErr Json) (imgFetch : String → HttpOutcome) :
    requests_get .connError = .error (.requestException "ConnectionError") ∧
    requests_get .timeout = .error (.requestException "Timeout") ∧
    (∀ st body, requests_get (.response st body) = .ok ⟨st, body⟩) ∧
    collect_link_definitions scripts parseJson .connError =
      .error (.requestException "ConnectionError") ∧
    collect_link_definitions scripts parseJson .timeout =
      .error (.requestException "Timeout") ∧
    script_run scripts parseJson .connError imgFetch =
      .error (.requestException "ConnectionError") ∧
    script_run scripts parseJson .timeout imgFetch =
      .error (.requestException "Timeout") :=
  ⟨rfl, rfl, fun _ _ => rfl, rfl, rfl, rfl, rfl⟩

end MwdjLinks
